import Mathlib

/-!
Verification of the us3 storage adapter (beyondstorage/go-service-us3).

The Go sources are embedded shallowly: each Go function used by the claims
becomes a Lean definition with the same name where Lean's grammar allows it
(the Go identifier `prefix` is a Lean keyword, so it is written `prefix_`
here).  Backend SDK calls (`client.ListObjects`, `client.DeleteFile`,
`client.HeadFile`, `client.Download`) are passed in as explicit function
arguments or records describing the backend's response, so theorems can
quantify over every backend behaviour.  Machine integers are modelled as
`Int`/`Nat`; Go's `int64` division truncates toward zero.
-/

/-- Go `strings.HasPrefix s pre` (byte-wise prefix test). -/
def goHasPrefix (s pre : String) : Bool :=
  pre.data.isPrefixOf s.data

/-- Go `strings.TrimPrefix s pre`: drop `pre` from the front of `s` when it is
a prefix, otherwise return `s` unchanged. -/
def goTrimPrefix (s pre : String) : String :=
  if goHasPrefix s pre then { data := s.data.drop pre.data.length } else s

/-- Go `int64` division truncates toward zero (`int64(v) / 1000`). -/
def goIntDiv (a b : Int) : Int :=
  Int.tdiv a b

/-- go-storage `types.ModeDir` bit flag. -/
def ModeDir : Nat := 1

/-- go-storage `types.ModeRead` bit flag. -/
def ModeRead : Nat := 2

/-- go-storage `types.ObjectMode.IsDir`: the `ModeDir` bit is set. -/
def modeIsDir (m : Nat) : Bool :=
  m &&& ModeDir != 0

/-- go-storage `types.StorageFeatures`, restricted to the flag this service
reads (`features.VirtualDir`). -/
structure StorageFeatures where
  VirtualDir : Bool
deriving DecidableEq

/-- The `Storage` struct of utils.go, restricted to the fields its methods
read (the backend client handle is supplied per call instead). -/
structure Storage where
  bucket : String
  workDir : String
  features : StorageFeatures
deriving DecidableEq

/-- go-storage `types.Object`, restricted to the fields this service writes.
`done` is the flag passed to `types.NewObject`; the optional attributes are
`none` until the corresponding `Set...` call happens.  `storageClass` holds
`ObjectSystemMetadata.StorageClass`, which the service always stores (an
absent backend value leaves it `""`). -/
structure Object where
  ID : String
  Path : String
  Mode : Nat
  done : Bool
  contentLength : Option Int := none
  lastModified : Option Int := none
  contentType : Option String := none
  etag : Option String := none
  storageClass : String := ""
deriving DecidableEq

/-- `Storage.newObject` (utils.go): `types.NewObject(s, done)`. -/
def Storage.newObject (s : Storage) (done : Bool) : Object :=
  { ID := "", Path := "", Mode := 0, done := done }

/-- `Storage.getAbsPath` (utils.go). -/
def Storage.getAbsPath (s : Storage) (path : String) : String :=
  let pre := goTrimPrefix s.workDir "/"
  pre ++ path

/-- `Storage.getRelPath` (utils.go). -/
def Storage.getRelPath (s : Storage) (path : String) : String :=
  let pre := goTrimPrefix s.workDir "/"
  goTrimPrefix path pre

/-- The portable error kinds targeted by the normalizer: go-storage
`services.ErrPermissionDenied`, `services.ErrObjectNotExist`,
`services.ErrUnexpected`. -/
inductive ErrKind where
  | permissionDenied
  | objectNotExist
  | unexpected
deriving DecidableEq

/-- The message of the kind sentinel (`services.Err....Error()`). -/
def errKindText : ErrKind → String
  | .permissionDenied => "permission_denied"
  | .objectNotExist => "object_not_exist"
  | .unexpected => "unexpected"

/-- The universe of Go `error` values flowing through this service:
`uerr.ServerError` (the backend SDK's coded error, carrying `RetCode`),
a portable kind sentinel (`services.ErrPermissionDenied` ...), the result of
`fmt.Errorf("%w, %v", sentinel, err)` (which wraps the sentinel and keeps the
rest only as formatted text), go-storage's structured
`services.PairUnsupportedError`, and any other error identified by its
message text. -/
inductive GoErr where
  | serverError (retCode : Int) (message : String)
  | errorCode (kind : ErrKind)
  | wrappedCode (kind : ErrKind) (message : String)
  | pairUnsupported (pair : String)
  | plain (message : String)
deriving DecidableEq

/-- `err.Error()`: the message text of an error value. -/
def errorMessage : GoErr → String
  | .serverError c m => "server error, retCode " ++ toString c ++ ", message " ++ m
  | .errorCode k => errKindText k
  | .wrappedCode _ m => m
  | .pairUnsupported p => "pair not supported: " ++ p
  | .plain m => m

/-- `fmt.Errorf("%w, %v", sentinel-of-kind, err)`: the result unwraps to the
kind sentinel; `err` itself contributes only its message text. -/
def wrapCode (k : ErrKind) (err : GoErr) : GoErr :=
  .wrappedCode k (errKindText k ++ ", " ++ errorMessage err)

/-- Go `errors.Unwrap` on the error values above: only a `fmt.Errorf` result
with a `%w` verb unwraps, and it unwraps to the kind sentinel. -/
def goUnwrap : GoErr → Option GoErr
  | .wrappedCode k _ => some (.errorCode k)
  | _ => none

/-- The portable kind an error exposes, if any. -/
def mappedKind : GoErr → Option ErrKind
  | .wrappedCode k _ => some k
  | .errorCode k => some k
  | _ => none

/-- Modelled from the spec: the type test `err.(services.InternalError)` of
the external go-storage library, which utils.go uses as its pass-through
guard.  Per the spec, it recognizes an error that "already belongs to an
internal/already-normalized kind": the normalizer's own outputs, the kind
sentinels, and go-storage's structured errors. -/
def isInternalError : GoErr → Bool
  | .errorCode _ => true
  | .wrappedCode _ _ => true
  | .pairUnsupported _ => true
  | _ => false

/-- `AccessDenied` (utils.go): the UCloud us3 RetCode for access denied. -/
def AccessDenied : Int := -148643

/-- `NoSuchKey` (utils.go): the UCloud us3 RetCode for a missing key. -/
def NoSuchKey : Int := -148654

/-- `formatError` (utils.go): converts SDK errors into the portable
taxonomy. -/
def formatError (err : GoErr) : GoErr :=
  if isInternalError err then err
  else
    match err with
    | .serverError c _ =>
      if c = AccessDenied then wrapCode .permissionDenied err
      else if c = NoSuchKey then wrapCode .objectNotExist err
      else wrapCode .unexpected err
    | _ => wrapCode .unexpected err

/-- The decimal value of a digit run; `none` when empty or holding a
non-digit (Go `strconv.ErrSyntax`). -/
def digitsVal (cs : List Char) : Option Nat :=
  match cs with
  | [] => none
  | _ =>
    cs.foldl
      (fun acc c =>
        match acc with
        | none => none
        | some n => if c.isDigit then some (n * 10 + (c.toNat - 48)) else none)
      (some 0)

/-- Go `strconv.ParseInt(s, 10, 64)`: optional sign, decimal digits, and the
`int64` range check (Go `strconv.ErrRange`). -/
def parseInt64 (str : String) : Option Int :=
  let cs := str.data
  let sign :=
    match cs with
    | c :: rest =>
      if c = '-' then (true, rest)
      else if c = '+' then (false, rest)
      else (false, cs)
    | [] => (false, cs)
  match digitsVal sign.2 with
  | none => none
  | some n =>
    if sign.1 then if n ≤ 2 ^ 63 then some (-(n : Int)) else none
    else if n ≤ 2 ^ 63 - 1 then some (n : Int) else none

/-- The weekday names of Go's reference layout (`Mon`). -/
def weekdayNames : List String :=
  ["Mon", "Tue", "Wed", "Thu", "Fri", "Sat", "Sun"]

/-- The month names of Go's reference layout (`Jan`). -/
def monthNames : List String :=
  ["Jan", "Feb", "Mar", "Apr", "May", "Jun",
   "Jul", "Aug", "Sep", "Oct", "Nov", "Dec"]

/-- Gregorian leap year (as Go's `time` package computes it). -/
def isLeap (y : Int) : Bool :=
  (y % 4 = 0 && y % 100 != 0) || y % 400 = 0

/-- Days in a month, used by Go's day-of-month range check. -/
def daysInMonth (y : Int) (m : Nat) : Nat :=
  if m = 2 then (if isLeap y then 29 else 28)
  else if m = 4 || m = 6 || m = 9 || m = 11 then 30
  else 31

/-- Days from 1970-01-01 to the civil date `y-m-d` (proleptic Gregorian). -/
def daysFromCivil (y : Int) (m d : Nat) : Int :=
  let yy : Int := if m ≤ 2 then y - 1 else y
  let era : Int := Int.fdiv yy 400
  let yoe : Int := yy - era * 400
  let mp : Nat := (m + 9) % 12
  let doy : Int := ((153 * mp + 2) / 5 : Nat) + (d : Int) - 1
  let doe : Int := yoe * 365 + Int.fdiv yoe 4 - Int.fdiv yoe 100 + doy
  era * 146097 + doe - 719468

/-- The value of a decimal digit character. -/
def dv (c : Char) : Nat := c.toNat - 48

/-- Go `time.Parse(time.RFC1123, s)` for the fixed-width layout
`Mon, 02 Jan 2006 15:04:05 MST`, returning the parsed instant as Unix
seconds: a named weekday, a zero-padded day (range-checked against the
month), a named month, a four-digit year, a zero-padded hour, minute and
second (range-checked), and a three-letter zone abbreviation (`GMT`, and any
abbreviation Go cannot resolve, denotes offset zero).  `none` is Go's parse
error. -/
def parseRFC1123 (str : String) : Option Int :=
  match str.data with
  | [w1, w2, w3, c1, s1, d1, d2, s2, m1, m2, m3, s3, y1, y2, y3, y4, s4,
     h1, h2, c2, n1, n2, c3, x1, x2, s5, z1, z2, z3] =>
    if c1 = ',' && s1 = ' ' && s2 = ' ' && s3 = ' ' && s4 = ' ' && s5 = ' ' &&
       c2 = ':' && c3 = ':' &&
       d1.isDigit && d2.isDigit && y1.isDigit && y2.isDigit && y3.isDigit &&
       y4.isDigit && h1.isDigit && h2.isDigit && n1.isDigit && n2.isDigit &&
       x1.isDigit && x2.isDigit &&
       weekdayNames.contains { data := [w1, w2, w3] } &&
       z1.isUpper && z2.isUpper && z3.isUpper then
      match monthNames.findIdx? (fun x => x = ({ data := [m1, m2, m3] } : String)) with
      | none => none
      | some i =>
        let y : Nat := dv y1 * 1000 + dv y2 * 100 + dv y3 * 10 + dv y4
        let m : Nat := i + 1
        let d : Nat := dv d1 * 10 + dv d2
        let hh : Nat := dv h1 * 10 + dv h2
        let mm : Nat := dv n1 * 10 + dv n2
        let ss : Nat := dv x1 * 10 + dv x2
        if d = 0 || d > daysInMonth (y : Int) m then none
        else if hh ≥ 24 || mm ≥ 60 || ss ≥ 60 then none
        else
          some (daysFromCivil (y : Int) m d * 86400 + (hh : Int) * 3600 +
                (mm : Int) * 60 + (ss : Int))
    else none
  | _ => none

/-- The backend SDK's `us3.ObjectInfo` listing entry, restricted to the
fields `formatFileObject` reads: `Key`, `Size` (a decimal string),
`LastModified` (milliseconds since the epoch, a Go `int`), `Etag` and
`StorageClass`. -/
structure ObjectInfo where
  Key : String
  Size : String
  LastModified : Int
  Etag : String
  StorageClass : String
deriving DecidableEq

/-- `Storage.formatFileObject` (utils.go): one listing entry becomes a
portable file object; a malformed `Size` is a fatal parse error, and
`LastModified` milliseconds become Unix seconds by `int64` division by
1000. -/
def Storage.formatFileObject (s : Storage) (v : ObjectInfo) : Except GoErr Object :=
  let o := s.newObject false
  let o := { o with ID := v.Key, Path := s.getRelPath v.Key,
                    Mode := o.Mode ||| ModeRead }
  match parseInt64 v.Size with
  | none => .error (.plain ("strconv.ParseInt: parsing " ++ v.Size))
  | some length =>
    let o := { o with contentLength := some length }
    let o := { o with lastModified := some (goIntDiv v.LastModified 1000) }
    let o := if v.Etag != "" then { o with etag := some v.Etag } else o
    let o := { o with storageClass := v.StorageClass }
    .ok o

/-- Go `http.Header.Get`: the first value stored under a key, `""` when the
key is absent. -/
def headerGet (h : List (String × String)) (k : String) : String :=
  match h.find? (fun p => p.fst = k) with
  | some p => p.snd
  | none => ""

/-- The `pairStorageCreate` option record, restricted to the fields `create`
reads. -/
structure pairStorageCreate where
  HasObjectMode : Bool
  ObjectMode : Nat
deriving DecidableEq

/-- The `pairStorageDelete` option record, restricted to the fields `delete`
reads. -/
structure pairStorageDelete where
  HasObjectMode : Bool
  ObjectMode : Nat
deriving DecidableEq

/-- The `pairStorageStat` option record, restricted to the fields `stat`
reads. -/
structure pairStorageStat where
  HasObjectMode : Bool
  ObjectMode : Nat
deriving DecidableEq

/-- `Storage.create` (storage.go): a purely local object descriptor; the
directory branch without virtual-directory support returns the nil object. -/
def Storage.create (s : Storage) (path : String) (opt : pairStorageCreate) :
    Option Object :=
  let rp := s.getAbsPath path
  if opt.HasObjectMode && modeIsDir opt.ObjectMode then
    if !s.features.VirtualDir then none
    else
      let rp := rp ++ "/"
      let o := s.newObject true
      let o := { o with Mode := o.Mode ||| ModeDir }
      some { o with ID := rp, Path := path }
  else
    let o := s.newObject false
    let o := { o with Mode := o.Mode ||| ModeRead }
    some { o with ID := rp, Path := path }

/-- `Storage.delete` (storage.go): `client.DeleteFile` is passed in as the
backend behaviour (key to result; `none` is Go's nil error).  A backend
`uerr.ServerError` carrying the `NoSuchKey` RetCode is converted to
success. -/
def Storage.delete (s : Storage) (path : String) (opt : pairStorageDelete)
    (deleteFile : String → Option GoErr) : Option GoErr :=
  let rp := s.getAbsPath path
  if opt.HasObjectMode && modeIsDir opt.ObjectMode && !s.features.VirtualDir then
    some (.pairUnsupported "object-mode")
  else
    let rp := if opt.HasObjectMode && modeIsDir opt.ObjectMode then rp ++ "/"
              else rp
    match deleteFile rp with
    | none => none
    | some e =>
      match e with
      | .serverError c _ => if c = NoSuchKey then none else some e
      | _ => some e

/-- `Storage.stat` (storage.go): `client.HeadFile` is passed in as the
backend behaviour, and `lastResponseHeader` is the client's
`LastResponseHeader` after a successful head request.  A malformed
`Content-Length` or `Last-Modified` header is fatal. -/
def Storage.stat (s : Storage) (path : String) (opt : pairStorageStat)
    (headFile : String → Option GoErr)
    (lastResponseHeader : List (String × String)) : Except GoErr Object :=
  let rp := s.getAbsPath path
  if opt.HasObjectMode && modeIsDir opt.ObjectMode && !s.features.VirtualDir then
    .error (.pairUnsupported "object-mode")
  else
    let rp := if opt.HasObjectMode && modeIsDir opt.ObjectMode then rp ++ "/"
              else rp
    match headFile rp with
    | some e => .error e
    | none =>
      let o := s.newObject true
      let o := { o with ID := rp, Path := path }
      let o := if opt.HasObjectMode && modeIsDir opt.ObjectMode then
                 { o with Mode := o.Mode ||| ModeDir }
               else
                 { o with Mode := o.Mode ||| ModeRead }
      let output := lastResponseHeader
      let vLen := headerGet output "Content-Length"
      match (if vLen != "" then (parseInt64 vLen).map some else some none) with
      | none => .error (.plain ("strconv.ParseInt: parsing " ++ vLen))
      | some lenOpt =>
        let o := match lenOpt with
                 | some length => { o with contentLength := some length }
                 | none => o
        let vMod := headerGet output "Last-Modified"
        match (if vMod != "" then (parseRFC1123 vMod).map some else some none) with
        | none => .error (.plain ("parsing time " ++ vMod))
        | some modOpt =>
          let o := match modOpt with
                   | some t => { o with lastModified := some t }
                   | none => o
          let vTyp := headerGet output "Content-Type"
          let o := if vTyp != "" then { o with contentType := some vTyp } else o
          let vTag := headerGet output "ETag"
          let o := if vTag != "" then { o with etag := some vTag } else o
          let vCls := headerGet output "X-Ufile-Storage-Class"
          .ok { o with storageClass := vCls }

/-- `objectPageStatus` (the listing cursor).  The Go field `prefix` is a Lean
keyword and is written `prefix_`. -/
structure objectPageStatus where
  prefix_ : String
  maxKeys : Nat
  delimiter : String
  marker : String
deriving DecidableEq

/-- `objectPageStatus.ContinuationToken`. -/
def objectPageStatus.ContinuationToken (i : objectPageStatus) : String :=
  i.marker

/-- The backend SDK's `ListObjects` response, restricted to the fields the
page functions read: `CommonPrefixes` (each carrying its `Prefix` key),
`Contents`, `NextMarker` and `IsTruncated`. -/
structure CommonPrefixEntry where
  Prefix : String
deriving DecidableEq

/-- The `ListObjects` response record. -/
structure ListObjectsOutput where
  CommonPrefixes : List CommonPrefixEntry
  Contents : List ObjectInfo
  NextMarker : String
  IsTruncated : Bool
deriving DecidableEq

/-- The Go `error` a page function returns to the iterator: nil (another
page may follow), the `types.IterateDone` sentinel, or a real error. -/
inductive NextRet where
  | ok
  | iterateDone
  | err (e : GoErr)
deriving DecidableEq

/-- One call of a page function: the objects it appended to `page.Data`, the
cursor after the call (Go mutates it in place), and the returned error
value. -/
structure PageOutcome where
  data : List Object
  status : objectPageStatus
  ret : NextRet
deriving DecidableEq

/-- The `for _, v := range output.Contents` loop shared by both page
functions: formatted objects are appended until `formatFileObject` fails;
on failure the objects appended so far stay in `page.Data` and the error is
returned. -/
def formatContents (s : Storage) : List ObjectInfo → List Object × Option GoErr
  | [] => ([], none)
  | v :: rest =>
    match s.formatFileObject v with
    | .error e => ([], some e)
    | .ok o =>
      let r := formatContents s rest
      (o :: r.1, r.2)

/-- The synthetic directory object `nextObjectPageByDir` builds for one
common-prefix entry. -/
def dirEntryObject (s : Storage) (v : CommonPrefixEntry) : Object :=
  let o := s.newObject true
  { o with ID := v.Prefix, Path := s.getRelPath v.Prefix,
           Mode := o.Mode ||| ModeDir }

/-- `Storage.nextObjectPageByDir` (storage.go): one backend call via
`listObjects` (prefix, marker, delimiter, maxKeys order), then the
common-prefix entries as directory objects, then the formatted contents;
the page is terminal when `NextMarker` is empty or `IsTruncated` is false,
and only otherwise is the marker advanced. -/
def Storage.nextObjectPageByDir (s : Storage) (input : objectPageStatus)
    (listObjects : String → String → String → Nat → Except GoErr ListObjectsOutput) :
    PageOutcome :=
  match listObjects input.prefix_ input.marker input.delimiter input.maxKeys with
  | .error e => { data := [], status := input, ret := .err e }
  | .ok output =>
    let dirs := output.CommonPrefixes.map (dirEntryObject s)
    match formatContents s output.Contents with
    | (files, some e) => { data := dirs ++ files, status := input, ret := .err e }
    | (files, none) =>
      if output.NextMarker = "" then
        { data := dirs ++ files, status := input, ret := .iterateDone }
      else if !output.IsTruncated then
        { data := dirs ++ files, status := input, ret := .iterateDone }
      else
        { data := dirs ++ files,
          status := { input with marker := output.NextMarker }, ret := .ok }

/-- `Storage.nextObjectPageByPrefix` (storage.go): as the directory variant
but without common-prefix entries. -/
def Storage.nextObjectPageByPrefix (s : Storage) (input : objectPageStatus)
    (listObjects : String → String → String → Nat → Except GoErr ListObjectsOutput) :
    PageOutcome :=
  match listObjects input.prefix_ input.marker input.delimiter input.maxKeys with
  | .error e => { data := [], status := input, ret := .err e }
  | .ok output =>
    match formatContents s output.Contents with
    | (files, some e) => { data := files, status := input, ret := .err e }
    | (files, none) =>
      if output.NextMarker = "" then
        { data := files, status := input, ret := .iterateDone }
      else if !output.IsTruncated then
        { data := files, status := input, ret := .iterateDone }
      else
        { data := files,
          status := { input with marker := output.NextMarker }, ret := .ok }

/-- Modelled from the spec: go-storage's object-iterator protocol (the
external `types.NewObjectIterator`), which "drives repeated invocation until
a sentinel iteration-done signal is returned".  Each element of `backends`
is the backend's behaviour for one `ListObjects` call, in order; the result
counts the backend calls made and concatenates the produced pages.  An empty
`backends` list means the backend was not exercised further. -/
def runListing (s : Storage)
    (nextFn : Storage → objectPageStatus →
      (String → String → String → Nat → Except GoErr ListObjectsOutput) →
      PageOutcome)
    (backends : List (String → String → String → Nat → Except GoErr ListObjectsOutput))
    (input : objectPageStatus) : Nat × List Object × Option GoErr :=
  match backends with
  | [] => (0, [], none)
  | b :: rest =>
    let r := nextFn s input b
    match r.ret with
    | .iterateDone => (1, r.data, none)
    | .err e => (1, r.data, some e)
    | .ok =>
      let t := runListing s nextFn rest r.status
      (1 + t.1, r.data ++ t.2.1, t.2.2)

/-- A Go `io.ReadCloser` value as `read` (storage.go) builds one: the nil
interface zero value, a reader over concrete bytes, or an
`iowrap.CallbackReadCloser` wrapper (whose callback observes the bytes that
pass through unchanged). -/
inductive GoReader where
  | nilReader
  | bytesReader (data : List Nat)
  | callbackReader (inner : GoReader)
deriving DecidableEq

/-- `io.Copy(w, rc)` drained to the end: the bytes written to the sink, or
`none` for the runtime panic of calling `Read` on a nil `io.ReadCloser`
interface. -/
def readAll : GoReader → Option (List Nat)
  | .nilReader => none
  | .bytesReader d => some d
  | .callbackReader inner => readAll inner

/-- The outcome of `read`: the download error, a runtime panic, or the byte
count with the bytes the sink received. -/
inductive ReadResult where
  | err (e : GoErr)
  | panic
  | ok (n : Nat) (written : List Nat)
deriving DecidableEq

/-- The backend state `read` consults: the result of `client.Download` and
the body it stores in `client.LastResponseBody`. -/
structure ReadBackend where
  downloadErr : Option GoErr
  lastResponseBody : List Nat
deriving DecidableEq

/-- `Storage.read` (storage.go): resolve the private URL, download, then
copy from `rc` to the sink — where `rc` wraps the nil `io.ReadCloser` zero
value in callback wrappers (the first callback's assignment writes only its
own parameter copy), so no bytes of `LastResponseBody` ever reach `rc`. -/
def Storage.read (s : Storage) (path : String) (hasIoCallback : Bool)
    (b : ReadBackend) : ReadResult :=
  match b.downloadErr with
  | some e => .err e
  | none =>
    let rc : GoReader := .nilReader
    let rc := .callbackReader rc
    let rc := if hasIoCallback then .callbackReader rc else rc
    match readAll rc with
    | none => .panic
    | some bytes => .ok bytes.length bytes

/-- A fully processed backend page: what `nextObjectPageByDir` does when the
backend call returns `output` and every content entry formats. -/
theorem nextObjectPageByDir_ok (s : Storage) (input : objectPageStatus)
    (b : String → String → String → Nat → Except GoErr ListObjectsOutput)
    (output : ListObjectsOutput) (files : List Object)
    (hb : b input.prefix_ input.marker input.delimiter input.maxKeys =
      Except.ok output)
    (hfc : formatContents s output.Contents = (files, none)) :
    s.nextObjectPageByDir input b =
      if output.NextMarker = "" || !output.IsTruncated then
        { data := output.CommonPrefixes.map (dirEntryObject s) ++ files,
          status := input, ret := .iterateDone }
      else
        { data := output.CommonPrefixes.map (dirEntryObject s) ++ files,
          status := { input with marker := output.NextMarker },
          ret := .ok } := by
  unfold Storage.nextObjectPageByDir
  simp only [hb, hfc]
  by_cases hm : output.NextMarker = ""
  · simp [hm]
  · by_cases ht : output.IsTruncated <;> simp [hm, ht]

/-- A fully processed backend page: what `nextObjectPageByPrefix` does when
the backend call returns `output` and every content entry formats. -/
theorem nextObjectPageByPrefix_ok (s : Storage) (input : objectPageStatus)
    (b : String → String → String → Nat → Except GoErr ListObjectsOutput)
    (output : ListObjectsOutput) (files : List Object)
    (hb : b input.prefix_ input.marker input.delimiter input.maxKeys =
      Except.ok output)
    (hfc : formatContents s output.Contents = (files, none)) :
    s.nextObjectPageByPrefix input b =
      if output.NextMarker = "" || !output.IsTruncated then
        { data := files, status := input, ret := .iterateDone }
      else
        { data := files, status := { input with marker := output.NextMarker },
          ret := .ok } := by
  unfold Storage.nextObjectPageByPrefix
  simp only [hb, hfc]
  by_cases hm : output.NextMarker = ""
  · simp [hm]
  · by_cases ht : output.IsTruncated <;> simp [hm, ht]

/-- A failed backend call leaves the cursor untouched and propagates the
error (`nextObjectPageByDir`). -/
theorem nextObjectPageByDir_err (s : Storage) (input : objectPageStatus)
    (b : String → String → String → Nat → Except GoErr ListObjectsOutput)
    (e : GoErr)
    (hb : b input.prefix_ input.marker input.delimiter input.maxKeys =
      Except.error e) :
    s.nextObjectPageByDir input b =
      { data := [], status := input, ret := .err e } := by
  unfold Storage.nextObjectPageByDir
  simp only [hb]

/-- A failed backend call leaves the cursor untouched and propagates the
error (`nextObjectPageByPrefix`). -/
theorem nextObjectPageByPrefix_err (s : Storage) (input : objectPageStatus)
    (b : String → String → String → Nat → Except GoErr ListObjectsOutput)
    (e : GoErr)
    (hb : b input.prefix_ input.marker input.delimiter input.maxKeys =
      Except.error e) :
    s.nextObjectPageByPrefix input b =
      { data := [], status := input, ret := .err e } := by
  unfold Storage.nextObjectPageByPrefix
  simp only [hb]

/-- A formatting failure mid-page leaves the cursor untouched and propagates
the error (`nextObjectPageByDir`). -/
theorem nextObjectPageByDir_fmtErr (s : Storage) (input : objectPageStatus)
    (b : String → String → String → Nat → Except GoErr ListObjectsOutput)
    (output : ListObjectsOutput) (files : List Object) (e : GoErr)
    (hb : b input.prefix_ input.marker input.delimiter input.maxKeys =
      Except.ok output)
    (hfc : formatContents s output.Contents = (files, some e)) :
    s.nextObjectPageByDir input b =
      { data := output.CommonPrefixes.map (dirEntryObject s) ++ files,
        status := input, ret := .err e } := by
  unfold Storage.nextObjectPageByDir
  simp only [hb, hfc]

/-- A formatting failure mid-page leaves the cursor untouched and propagates
the error (`nextObjectPageByPrefix`). -/
theorem nextObjectPageByPrefix_fmtErr (s : Storage) (input : objectPageStatus)
    (b : String → String → String → Nat → Except GoErr ListObjectsOutput)
    (output : ListObjectsOutput) (files : List Object) (e : GoErr)
    (hb : b input.prefix_ input.marker input.delimiter input.maxKeys =
      Except.ok output)
    (hfc : formatContents s output.Contents = (files, some e)) :
    s.nextObjectPageByPrefix input b =
      { data := files, status := input, ret := .err e } := by
  unfold Storage.nextObjectPageByPrefix
  simp only [hb, hfc]

/-- A content loop that ends without error formats every entry in order. -/
theorem formatContents_none (s : Storage) :
    ∀ (l : List ObjectInfo) (files : List Object),
    formatContents s l = (files, none) →
    List.Forall₂ (fun v o => s.formatFileObject v = Except.ok o) l files := by
  intro l
  induction l with
  | nil =>
    intro files h
    unfold formatContents at h
    obtain ⟨rfl, -⟩ := Prod.mk.injEq .. ▸ h
    exact List.Forall₂.nil
  | cons v rest ih =>
    intro files h
    unfold formatContents at h
    cases hv : s.formatFileObject v with
    | error e => rw [hv] at h; simp at h
    | ok o =>
      rw [hv] at h
      cases hrest : formatContents s rest with
      | mk r1 r2 =>
        rw [hrest] at h
        obtain ⟨h1, h2⟩ := Prod.mk.injEq .. ▸ h
        subst h1
        cases r2 with
        | none => exact List.Forall₂.cons hv (ih r1 hrest)
        | some e => simp at h2

/-- A formattable content entry for the backend stub. -/
def stubInfo : ObjectInfo :=
  { Key := "wd/a", Size := "7", LastModified := 1000, Etag := "", StorageClass := "" }

/-- Stub page 1: one directory entry and one content entry, truncated with a
non-empty continuation token. -/
def stubPage1 : ListObjectsOutput :=
  { CommonPrefixes := [{ Prefix := "wd/d/" }], Contents := [stubInfo],
    NextMarker := "m1", IsTruncated := true }

/-- Stub page 2: zero items, truncated with a non-empty token. -/
def stubPage2 : ListObjectsOutput :=
  { CommonPrefixes := [], Contents := [], NextMarker := "m2", IsTruncated := true }

/-- Stub page 3: zero items, truncated with a non-empty token. -/
def stubPage3 : ListObjectsOutput :=
  { CommonPrefixes := [], Contents := [], NextMarker := "m3", IsTruncated := true }

/-- Stub page 4: `IsTruncated = false`, ending the listing. -/
def stubPage4 : ListObjectsOutput :=
  { CommonPrefixes := [], Contents := [], NextMarker := "m4", IsTruncated := false }

/-- The backend stub: 3 truncated pages with non-empty tokens, then one page
with `IsTruncated = false`. -/
def stubBackends :
    List (String → String → String → Nat → Except GoErr ListObjectsOutput) :=
  [fun _ _ _ _ => .ok stubPage1, fun _ _ _ _ => .ok stubPage2,
   fun _ _ _ _ => .ok stubPage3, fun _ _ _ _ => .ok stubPage4]

/-- The initial cursor of the stub listing. -/
def stubInput : objectPageStatus :=
  { prefix_ := "wd/", maxKeys := 200, delimiter := "/", marker := "" }

/-- The storage instance of the stub listing. -/
def stubStorage : Storage :=
  { bucket := "b", workDir := "/wd/", features := { VirtualDir := true } }

/-- C1: in both listing modes a successfully processed page is final exactly
when the backend response's continuation token is empty or its truncated
flag is false (each condition alone ends iteration); on a non-final page the
cursor's marker becomes the returned token; and the iterator driven over the
backend stub of 3 truncated pages with non-empty tokens followed by one page
with `IsTruncated = false` makes exactly 4 backend calls, although pages 2
and 3 hold zero items. -/
theorem listing_terminates_iff_token_empty_or_not_truncated :
    (∀ (s : Storage) (input : objectPageStatus)
       (b : String → String → String → Nat → Except GoErr ListObjectsOutput)
       (output : ListObjectsOutput) (files : List Object),
       b input.prefix_ input.marker input.delimiter input.maxKeys =
         Except.ok output →
       formatContents s output.Contents = (files, none) →
       ((s.nextObjectPageByDir input b).ret = .iterateDone ↔
          (output.NextMarker = "" ∨ output.IsTruncated = false)) ∧
       ((s.nextObjectPageByDir input b).ret = .ok ↔
          ¬(output.NextMarker = "" ∨ output.IsTruncated = false)) ∧
       ((s.nextObjectPageByDir input b).ret = .ok →
          (s.nextObjectPageByDir input b).status.marker = output.NextMarker) ∧
       ((s.nextObjectPageByPrefix input b).ret = .iterateDone ↔
          (output.NextMarker = "" ∨ output.IsTruncated = false)) ∧
       ((s.nextObjectPageByPrefix input b).ret = .ok ↔
          ¬(output.NextMarker = "" ∨ output.IsTruncated = false)) ∧
       ((s.nextObjectPageByPrefix input b).ret = .ok →
          (s.nextObjectPageByPrefix input b).status.marker = output.NextMarker)) ∧
    (runListing stubStorage Storage.nextObjectPageByDir stubBackends
       stubInput).1 = 4 ∧
    (runListing stubStorage Storage.nextObjectPageByPrefix stubBackends
       stubInput).1 = 4 ∧
    (runListing stubStorage Storage.nextObjectPageByDir stubBackends
       stubInput).2.2 = none ∧
    (runListing stubStorage Storage.nextObjectPageByPrefix stubBackends
       stubInput).2.2 = none := by
  refine ⟨?_, by decide, by decide, by decide, by decide⟩
  intro s input b output files hb hfc
  rw [nextObjectPageByDir_ok s input b output files hb hfc,
      nextObjectPageByPrefix_ok s input b output files hb hfc]
  by_cases hm : output.NextMarker = ""
  · simp [hm]
  · by_cases ht : output.IsTruncated <;> simp [hm, ht]

/-- Witness for C1 at a concrete page: a non-empty token with
`IsTruncated = true` is not final and advances the marker. -/
theorem listing_terminates_iff_witness :
    ((stubStorage.nextObjectPageByDir stubInput
        (fun _ _ _ _ => Except.ok stubPage1)).ret = .iterateDone ↔
      (stubPage1.NextMarker = "" ∨ stubPage1.IsTruncated = false)) ∧
    ((stubStorage.nextObjectPageByDir stubInput
        (fun _ _ _ _ => Except.ok stubPage1)).ret = .ok →
      (stubStorage.nextObjectPageByDir stubInput
        (fun _ _ _ _ => Except.ok stubPage1)).status.marker =
        stubPage1.NextMarker) := by
  have h := (listing_terminates_iff_token_empty_or_not_truncated.1 stubStorage
    stubInput (fun _ _ _ _ => Except.ok stubPage1) stubPage1
    ((formatContents stubStorage stubPage1.Contents).1) rfl (by decide))
  exact ⟨h.1, h.2.2.1⟩

/-- C9: a page fetch never changes the cursor's prefix, maxKeys or delimiter
(in either mode, whatever the backend call returns), and it writes the
marker only on a non-terminal page: whenever the returned signal is not nil
(a terminal or failed page) the marker keeps its previous value, and on a
nil return the marker is the response's continuation token. -/
theorem page_fetch_cursor_frame :
    ∀ (s : Storage) (input : objectPageStatus)
      (b : String → String → String → Nat → Except GoErr ListObjectsOutput),
    ((s.nextObjectPageByDir input b).status.prefix_ = input.prefix_ ∧
     (s.nextObjectPageByDir input b).status.maxKeys = input.maxKeys ∧
     (s.nextObjectPageByDir input b).status.delimiter = input.delimiter ∧
     ((s.nextObjectPageByDir input b).ret ≠ .ok →
       (s.nextObjectPageByDir input b).status.marker = input.marker) ∧
     (∀ output,
       b input.prefix_ input.marker input.delimiter input.maxKeys =
         Except.ok output →
       (s.nextObjectPageByDir input b).ret = .ok →
       (s.nextObjectPageByDir input b).status.marker = output.NextMarker)) ∧
    ((s.nextObjectPageByPrefix input b).status.prefix_ = input.prefix_ ∧
     (s.nextObjectPageByPrefix input b).status.maxKeys = input.maxKeys ∧
     (s.nextObjectPageByPrefix input b).status.delimiter = input.delimiter ∧
     ((s.nextObjectPageByPrefix input b).ret ≠ .ok →
       (s.nextObjectPageByPrefix input b).status.marker = input.marker) ∧
     (∀ output,
       b input.prefix_ input.marker input.delimiter input.maxKeys =
         Except.ok output →
       (s.nextObjectPageByPrefix input b).ret = .ok →
       (s.nextObjectPageByPrefix input b).status.marker =
         output.NextMarker)) := by
  intro s input b
  constructor
  · cases hb : b input.prefix_ input.marker input.delimiter input.maxKeys with
    | error e =>
      rw [nextObjectPageByDir_err s input b e hb]
      refine ⟨rfl, rfl, rfl, fun _ => rfl, fun output2 hout hret => ?_⟩
      simp at hret
    | ok output =>
      cases hfc : formatContents s output.Contents with
      | mk files r =>
        cases r with
        | some e =>
          rw [nextObjectPageByDir_fmtErr s input b output files e hb hfc]
          refine ⟨rfl, rfl, rfl, fun _ => rfl, fun output2 hout hret => ?_⟩
          simp at hret
        | none =>
          rw [nextObjectPageByDir_ok s input b output files hb hfc]
          by_cases hm : output.NextMarker = "" <;>
            by_cases ht : output.IsTruncated <;>
            simp [hm, ht] <;>
            intro output2 hout <;>
            injection hout with h2 <;>
            subst h2 <;>
            simp [hm, ht]
  · cases hb : b input.prefix_ input.marker input.delimiter input.maxKeys with
    | error e =>
      rw [nextObjectPageByPrefix_err s input b e hb]
      refine ⟨rfl, rfl, rfl, fun _ => rfl, fun output2 hout hret => ?_⟩
      simp at hret
    | ok output =>
      cases hfc : formatContents s output.Contents with
      | mk files r =>
        cases r with
        | some e =>
          rw [nextObjectPageByPrefix_fmtErr s input b output files e hb hfc]
          refine ⟨rfl, rfl, rfl, fun _ => rfl, fun output2 hout hret => ?_⟩
          simp at hret
        | none =>
          rw [nextObjectPageByPrefix_ok s input b output files hb hfc]
          by_cases hm : output.NextMarker = "" <;>
            by_cases ht : output.IsTruncated <;>
            simp [hm, ht] <;>
            intro output2 hout <;>
            injection hout with h2 <;>
            subst h2 <;>
            simp [hm, ht]

/-- Witness for C9 at a concrete fetch: the stub's first page is
non-terminal, so the marker becomes its token while prefix, maxKeys and
delimiter stay put. -/
theorem page_fetch_cursor_frame_witness :
    (stubStorage.nextObjectPageByDir stubInput
      (fun _ _ _ _ => Except.ok stubPage1)).status.prefix_ =
      stubInput.prefix_ ∧
    (stubStorage.nextObjectPageByDir stubInput
      (fun _ _ _ _ => Except.ok stubPage1)).status.marker =
      stubPage1.NextMarker := by
  have h := (page_fetch_cursor_frame stubStorage stubInput
    (fun _ _ _ _ => Except.ok stubPage1)).1
  exact ⟨h.1, h.2.2.2.2 stubPage1 rfl (by decide)⟩

/-- C5: a directory-mode page built from a backend response with N
common-prefix entries and M content entries (all of which format) holds
exactly N + M objects: first the N synthetic directory objects in backend
order — each with the Dir mode bit, `done = true`, `ID` the common prefix
and `Path` that prefix stripped of the working-directory prefix — then the
M file objects, each exactly as `formatFileObject` produces it. -/
theorem dir_page_shape
    (s : Storage) (input : objectPageStatus)
    (b : String → String → String → Nat → Except GoErr ListObjectsOutput)
    (output : ListObjectsOutput) (files : List Object)
    (hb : b input.prefix_ input.marker input.delimiter input.maxKeys =
      Except.ok output)
    (hfc : formatContents s output.Contents = (files, none)) :
    (s.nextObjectPageByDir input b).data =
      output.CommonPrefixes.map (dirEntryObject s) ++ files ∧
    (s.nextObjectPageByDir input b).data.length =
      output.CommonPrefixes.length + output.Contents.length ∧
    (∀ v, v ∈ output.CommonPrefixes →
      modeIsDir (dirEntryObject s v).Mode = true ∧
      (dirEntryObject s v).done = true ∧
      (dirEntryObject s v).ID = v.Prefix ∧
      (dirEntryObject s v).Path = s.getRelPath v.Prefix) ∧
    List.Forall₂ (fun v o => s.formatFileObject v = Except.ok o)
      output.Contents files := by
  have hdata : (s.nextObjectPageByDir input b).data =
      output.CommonPrefixes.map (dirEntryObject s) ++ files := by
    rw [nextObjectPageByDir_ok s input b output files hb hfc]
    by_cases hm : output.NextMarker = "" <;>
      by_cases ht : output.IsTruncated <;> simp [hm, ht]
  have hfa := formatContents_none s output.Contents files hfc
  refine ⟨hdata, ?_, ?_, hfa⟩
  · rw [hdata]
    rw [List.length_append, List.length_map, hfa.length_eq]
  · intro v _
    refine ⟨?_, rfl, rfl, rfl⟩
    simp [dirEntryObject, Storage.newObject, modeIsDir, ModeDir]

/-- Witness for C5 at the stub's first page: 1 common prefix and 1 content
entry give a page of exactly 2 objects, directory entry first. -/
theorem dir_page_shape_witness :
    (stubStorage.nextObjectPageByDir stubInput
      (fun _ _ _ _ => Except.ok stubPage1)).data.length =
      stubPage1.CommonPrefixes.length + stubPage1.Contents.length ∧
    (stubStorage.nextObjectPageByDir stubInput
      (fun _ _ _ _ => Except.ok stubPage1)).data =
      stubPage1.CommonPrefixes.map (dirEntryObject stubStorage) ++
        (formatContents stubStorage stubPage1.Contents).1 := by
  have h := dir_page_shape stubStorage stubInput
    (fun _ _ _ _ => Except.ok stubPage1) stubPage1
    ((formatContents stubStorage stubPage1.Contents).1) rfl (by decide)
  exact ⟨h.2.1, h.1⟩

/-- C2: when the backend delete call fails with a `uerr.ServerError` carrying
the `NoSuchKey` RetCode (-148654), `delete` reports success; in particular
two deletes in sequence on the same key — the first accepted by the backend,
the second failing with that code — both report success. -/
theorem delete_noSuchKey_is_success
    (s : Storage) (path : String) (opt : pairStorageDelete)
    (b1 b2 : String → Option GoErr) (m : String)
    (hguard : (opt.HasObjectMode && modeIsDir opt.ObjectMode &&
      !s.features.VirtualDir) = false)
    (h1 : b1 (if opt.HasObjectMode && modeIsDir opt.ObjectMode then
        s.getAbsPath path ++ "/" else s.getAbsPath path) = none)
    (h2 : b2 (if opt.HasObjectMode && modeIsDir opt.ObjectMode then
        s.getAbsPath path ++ "/" else s.getAbsPath path) =
      some (GoErr.serverError NoSuchKey m)) :
    s.delete path opt b1 = none ∧ s.delete path opt b2 = none := by
  unfold Storage.delete
  have hg : ¬((opt.HasObjectMode && modeIsDir opt.ObjectMode &&
      !s.features.VirtualDir) = true) := by
    intro hc
    rw [hguard] at hc
    exact Bool.noConfusion hc
  refine ⟨?_, ?_⟩ <;> rw [if_neg hg] <;> dsimp only
  · rw [h1]
  · rw [h2]
    simp

/-- Witness for C2: a plain delete whose backend rejects the second call
with the `NoSuchKey` code succeeds both times. -/
theorem delete_noSuchKey_is_success_witness :
    stubStorage.delete "k" { HasObjectMode := false, ObjectMode := 0 }
      (fun _ => none) = none ∧
    stubStorage.delete "k" { HasObjectMode := false, ObjectMode := 0 }
      (fun _ => some (GoErr.serverError NoSuchKey "file not exists")) =
      none :=
  delete_noSuchKey_is_success stubStorage "k"
    { HasObjectMode := false, ObjectMode := 0 }
    (fun _ => none)
    (fun _ => some (GoErr.serverError NoSuchKey "file not exists"))
    "file not exists" rfl rfl rfl

/-- C3: the normalizer sends a backend server error with the `AccessDenied`
code to the permission-denied kind, one with the `NoSuchKey` code to the
object-not-exist kind, one with any other code to the unexpected kind, and
an error carrying no backend status code to the unexpected kind; applying
it to an already-normalized error returns the error unchanged, so
normalizing twice never double-wraps. -/
theorem formatError_classification :
    (∀ m, mappedKind (formatError (.serverError AccessDenied m)) =
      some .permissionDenied) ∧
    (∀ m, mappedKind (formatError (.serverError NoSuchKey m)) =
      some .objectNotExist) ∧
    (∀ c m, c ≠ AccessDenied → c ≠ NoSuchKey →
      mappedKind (formatError (.serverError c m)) = some .unexpected) ∧
    (∀ m, mappedKind (formatError (.plain m)) = some .unexpected) ∧
    (∀ e, isInternalError e = true → formatError e = e) ∧
    (∀ e, formatError (formatError e) = formatError e) := by
  refine ⟨?_, ?_, ?_, ?_, ?_, ?_⟩
  · intro m
    simp [formatError, isInternalError, wrapCode, mappedKind]
  · intro m
    simp [formatError, isInternalError, wrapCode, mappedKind, AccessDenied,
      NoSuchKey]
  · intro c m h1 h2
    simp [formatError, isInternalError, wrapCode, mappedKind, h1, h2]
  · intro m
    simp [formatError, isInternalError, wrapCode, mappedKind]
  · intro e he
    simp [formatError, he]
  · intro e
    cases e with
    | serverError c m =>
      by_cases h1 : c = AccessDenied
      · simp [formatError, isInternalError, wrapCode, h1, AccessDenied,
          NoSuchKey]
      · by_cases h2 : c = NoSuchKey
        · simp [formatError, isInternalError, wrapCode, h1, h2, AccessDenied,
            NoSuchKey]
        · simp [formatError, isInternalError, wrapCode, h1, h2]
    | errorCode k => simp [formatError, isInternalError]
    | wrappedCode k m => simp [formatError, isInternalError]
    | pairUnsupported p => simp [formatError, isInternalError]
    | plain m => simp [formatError, isInternalError, wrapCode]

/-- Witness for C3: a server error with an unrecognized code maps to the
unexpected kind. -/
theorem formatError_classification_witness :
    mappedKind (formatError (.serverError 5 "boom")) =
      some ErrKind.unexpected :=
  formatError_classification.2.2.1 5 "boom" (by decide) (by decide)

/-- C7: `getRelPath` inverts `getAbsPath` on every relative path and every
working directory, stripping the prefix never fails, and a key the prefix
does not head is returned unchanged. -/
theorem getRelPath_getAbsPath_roundtrip :
    (∀ (s : Storage) (p : String), s.getRelPath (s.getAbsPath p) = p) ∧
    (∀ (s : Storage) (key : String),
      goHasPrefix key (goTrimPrefix s.workDir "/") = false →
      s.getRelPath key = key) := by
  constructor
  · intro s p
    show goTrimPrefix (goTrimPrefix s.workDir "/" ++ p)
      (goTrimPrefix s.workDir "/") = p
    generalize goTrimPrefix s.workDir "/" = pre
    have hpre : goHasPrefix (pre ++ p) pre = true := by
      unfold goHasPrefix
      rw [String.data_append]
      exact List.isPrefixOf_iff_prefix.mpr (List.prefix_append _ _)
    unfold goTrimPrefix
    rw [if_pos hpre, String.data_append, List.drop_left]
  · intro s key h
    show goTrimPrefix key (goTrimPrefix s.workDir "/") = key
    revert h
    generalize goTrimPrefix s.workDir "/" = pre
    intro h
    unfold goTrimPrefix
    rw [if_neg]
    rw [h]
    exact Bool.false_ne_true

/-- Witness for C7: with working directory `/wd/` the key `other/x` keeps its
name, and the round trip on `a.txt` returns `a.txt`. -/
theorem getRelPath_getAbsPath_roundtrip_witness :
    stubStorage.getRelPath (stubStorage.getAbsPath "a.txt") = "a.txt" ∧
    stubStorage.getRelPath "other/x" = "other/x" :=
  ⟨getRelPath_getAbsPath_roundtrip.1 stubStorage "a.txt",
   getRelPath_getAbsPath_roundtrip.2 stubStorage "other/x" (by decide)⟩

/-- Counterexample to C8 as stated: the normalizer's result does not keep
the original error as its wrapped cause.  Unwrapping the mapped error yields
the kind sentinel, not the original, and two distinct original errors (a
backend server error, and a plain error whose message happens to read the
same) map to identical results, so the original cannot be recovered from the
result. -/
theorem formatError_no_wrapped_cause :
    goUnwrap (formatError (GoErr.serverError 7 "boom")) =
      some (GoErr.errorCode ErrKind.unexpected) ∧
    formatError (GoErr.serverError 7 "boom") =
      formatError (GoErr.plain (errorMessage (GoErr.serverError 7 "boom"))) ∧
    GoErr.serverError 7 "boom" ≠
      GoErr.plain (errorMessage (GoErr.serverError 7 "boom")) := by
  decide

/-- C8 amended: for every error the normalizer maps (every error not already
normalized), the result wraps the portable kind sentinel as its cause and
preserves the original error only as text appended to the message — per the
normalizer's contract the original error value itself is not wrapped — and
the mapping is a total function that never raises an error. -/
theorem formatError_wraps_kind_and_keeps_text (e : GoErr)
    (h : isInternalError e = false) :
    ∃ k, formatError e =
        GoErr.wrappedCode k (errKindText k ++ ", " ++ errorMessage e) ∧
      goUnwrap (formatError e) = some (GoErr.errorCode k) := by
  cases e with
  | serverError c m =>
    by_cases h1 : c = AccessDenied
    · exact ⟨.permissionDenied, by simp [formatError, isInternalError,
        wrapCode, h1], by simp [formatError, isInternalError, wrapCode, h1,
        goUnwrap]⟩
    · by_cases h2 : c = NoSuchKey
      · exact ⟨.objectNotExist, by simp [formatError, isInternalError,
          wrapCode, h1, h2, AccessDenied, NoSuchKey], by simp [formatError,
          isInternalError, wrapCode, h1, h2, AccessDenied, NoSuchKey,
          goUnwrap]⟩
      · exact ⟨.unexpected, by simp [formatError, isInternalError, wrapCode,
          h1, h2], by simp [formatError, isInternalError, wrapCode, h1, h2,
          goUnwrap]⟩
  | errorCode k => exact absurd h (by simp [isInternalError])
  | wrappedCode k m => exact absurd h (by simp [isInternalError])
  | pairUnsupported p => exact absurd h (by simp [isInternalError])
  | plain m =>
    exact ⟨.unexpected, by simp [formatError, isInternalError, wrapCode],
      by simp [formatError, isInternalError, wrapCode, goUnwrap]⟩

/-- Witness for the amended C8 on a plain error. -/
theorem formatError_wraps_kind_and_keeps_text_witness :
    ∃ k, formatError (GoErr.plain "boom") =
        GoErr.wrappedCode k
          (errKindText k ++ ", " ++ errorMessage (GoErr.plain "boom")) ∧
      goUnwrap (formatError (GoErr.plain "boom")) =
        some (GoErr.errorCode k) :=
  formatError_wraps_kind_and_keeps_text (GoErr.plain "boom") (by decide)

/-- C6: both input shapes normalize to the same absolute-instant field: a
listing entry with `Size = "42"` and `LastModified = 1000000000000`
milliseconds yields content length 42 and last-modified Unix second
1000000000 (integer division by 1000); a stat response whose headers carry
`Content-Length: 42` and `Last-Modified: Mon, 02 Jan 2006 15:04:05 GMT`
yields content length 42 and last-modified Unix second 1136214245, the
instant that RFC1123 date denotes; and a parse failure of the size or
date field is fatal to the listing and to `stat` respectively. -/
theorem format_timestamps_normalized :
    (∀ (s : Storage) (v : ObjectInfo),
      v.Size = "42" → v.LastModified = 1000000000000 →
      ∃ o, s.formatFileObject v = Except.ok o ∧
        o.contentLength = some 42 ∧ o.lastModified = some 1000000000) ∧
    (∀ (s : Storage) (path : String) (hf : String → Option GoErr)
       (hdr : List (String × String)),
      hf (s.getAbsPath path) = none →
      headerGet hdr "Content-Length" = "42" →
      headerGet hdr "Last-Modified" = "Mon, 02 Jan 2006 15:04:05 GMT" →
      ∃ o, s.stat path { HasObjectMode := false, ObjectMode := 0 } hf hdr =
          Except.ok o ∧
        o.contentLength = some 42 ∧ o.lastModified = some 1136214245) ∧
    (∀ (s : Storage) (v : ObjectInfo),
      parseInt64 v.Size = none →
      ∃ e, s.formatFileObject v = Except.error e) ∧
    (∀ (s : Storage) (path : String) (hf : String → Option GoErr)
       (hdr : List (String × String)),
      hf (s.getAbsPath path) = none →
      headerGet hdr "Content-Length" = "" →
      parseRFC1123 (headerGet hdr "Last-Modified") = none →
      headerGet hdr "Last-Modified" ≠ "" →
      ∃ e, s.stat path { HasObjectMode := false, ObjectMode := 0 } hf hdr =
          Except.error e) := by
  have h42 : parseInt64 "42" = some 42 := by decide
  have hdate : parseRFC1123 "Mon, 02 Jan 2006 15:04:05 GMT" =
      some 1136214245 := by decide
  refine ⟨?_, ?_, ?_, ?_⟩
  · intro s v h1 h2
    unfold Storage.formatFileObject
    rw [h1, h42]
    refine ⟨_, rfl, ?_, ?_⟩ <;>
      cases hEt : v.Etag != "" <;> simp [hEt, h2] <;> decide
  · intro s path hf hdr hh hcl hlm
    unfold Storage.stat
    simp [hh, hcl, hlm, h42, hdate]
    by_cases hE : headerGet hdr "ETag" = "" <;>
      by_cases hT : headerGet hdr "Content-Type" = "" <;> simp [hE, hT]
  · intro s v hp
    unfold Storage.formatFileObject
    rw [hp]
    exact ⟨_, rfl⟩
  · intro s path hf hdr hh hcl hpf hne
    unfold Storage.stat
    simp [hh, hcl, hpf, hne]

/-- Witness for C6 on concrete inputs of both shapes. -/
theorem format_timestamps_normalized_witness :
    (∃ o, stubStorage.formatFileObject
        { Key := "wd/x", Size := "42", LastModified := 1000000000000,
          Etag := "", StorageClass := "" } = Except.ok o ∧
      o.contentLength = some 42 ∧ o.lastModified = some 1000000000) ∧
    (∃ o, stubStorage.stat "x" { HasObjectMode := false, ObjectMode := 0 }
        (fun _ => none)
        [("Content-Length", "42"),
         ("Last-Modified", "Mon, 02 Jan 2006 15:04:05 GMT")] =
          Except.ok o ∧
      o.contentLength = some 42 ∧ o.lastModified = some 1136214245) :=
  ⟨format_timestamps_normalized.1 stubStorage
      { Key := "wd/x", Size := "42", LastModified := 1000000000000,
        Etag := "", StorageClass := "" } rfl rfl,
   format_timestamps_normalized.2.1 stubStorage "x" (fun _ => none)
      [("Content-Length", "42"),
       ("Last-Modified", "Mon, 02 Jan 2006 15:04:05 GMT")]
      rfl (by decide) (by decide)⟩

/-- C10: with directory mode requested and virtual directories enabled,
`create`, `stat` and `delete` all address the absolute key with `"/"`
appended: `create` and `stat` return an object whose `ID` is the absolute
key plus `"/"`, whose `Path` is exactly the caller's relative path (no
trailing slash) and whose mode carries the Dir bit, and `delete` consults
the backend at that same trailing-slash key. -/
theorem virtual_dir_trailing_slash
    (s : Storage) (path : String) (optC : pairStorageCreate)
    (optS : pairStorageStat) (optD : pairStorageDelete)
    (hf : String → Option GoErr) (df : String → Option GoErr)
    (hv : s.features.VirtualDir = true)
    (hc1 : optC.HasObjectMode = true) (hc2 : modeIsDir optC.ObjectMode = true)
    (hs1 : optS.HasObjectMode = true) (hs2 : modeIsDir optS.ObjectMode = true)
    (hd1 : optD.HasObjectMode = true) (hd2 : modeIsDir optD.ObjectMode = true)
    (hhead : hf (s.getAbsPath path ++ "/") = none) :
    (∃ o, s.create path optC = some o ∧
      o.ID = s.getAbsPath path ++ "/" ∧ o.Path = path ∧
      modeIsDir o.Mode = true ∧ o.done = true) ∧
    (∃ o, s.stat path optS hf [] = Except.ok o ∧
      o.ID = s.getAbsPath path ++ "/" ∧ o.Path = path ∧
      modeIsDir o.Mode = true ∧ o.done = true) ∧
    s.delete path optD df =
      (match df (s.getAbsPath path ++ "/") with
       | none => none
       | some e =>
         match e with
         | .serverError c _ => if c = NoSuchKey then none else some e
         | _ => some e) := by
  simp [modeIsDir, ModeDir] at hc2 hs2 hd2
  refine ⟨?_, ?_, ?_⟩
  · unfold Storage.create
    simp [hc1, hc2, hv, modeIsDir, ModeDir, Storage.newObject]
  · unfold Storage.stat
    simp [hs1, hs2, hv, hhead, headerGet, modeIsDir, ModeDir,
      Storage.newObject]
  · unfold Storage.delete
    simp [hd1, hd2, hv, modeIsDir, ModeDir]

/-- Witness for C10 on a concrete directory create, stat and delete. -/
theorem virtual_dir_trailing_slash_witness :
    (∃ o, stubStorage.create "d"
        { HasObjectMode := true, ObjectMode := ModeDir } = some o ∧
      o.ID = stubStorage.getAbsPath "d" ++ "/" ∧ o.Path = "d" ∧
      modeIsDir o.Mode = true ∧ o.done = true) ∧
    (∃ o, stubStorage.stat "d" { HasObjectMode := true, ObjectMode := ModeDir }
        (fun _ => none) [] = Except.ok o ∧
      o.ID = stubStorage.getAbsPath "d" ++ "/" ∧ o.Path = "d" ∧
      modeIsDir o.Mode = true ∧ o.done = true) ∧
    stubStorage.delete "d" { HasObjectMode := true, ObjectMode := ModeDir }
        (fun _ => none) =
      (match (fun (_ : String) => (none : Option GoErr))
          (stubStorage.getAbsPath "d" ++ "/") with
       | none => none
       | some e =>
         match e with
         | .serverError c _ => if c = NoSuchKey then none else some e
         | _ => some e) :=
  virtual_dir_trailing_slash stubStorage "d"
    { HasObjectMode := true, ObjectMode := ModeDir }
    { HasObjectMode := true, ObjectMode := ModeDir }
    { HasObjectMode := true, ObjectMode := ModeDir }
    (fun _ => none) (fun _ => none)
    rfl rfl (by decide) rfl (by decide) rfl (by decide) rfl

/-- C4: whenever the download call succeeds, `read` panics instead of
streaming the downloaded body: the reader it copies from wraps the nil
`io.ReadCloser` interface value, so the bytes held in `LastResponseBody`
never reach the output sink (with or without a user I/O callback, and
whatever the body holds). -/
theorem read_panics_never_streams_body :
    ∀ (s : Storage) (path : String) (hasCb : Bool) (body : List Nat),
    s.read path hasCb
      { downloadErr := none, lastResponseBody := body } = .panic := by
  intro s path hasCb body
  cases hasCb <;> rfl
